import Mathlib

/-!
Verification of the trading-manager repository core: the dashboard
aggregator (`backend/api/dashboard_routes.py`), the signal engine
(`backend/tasks/signals.py`) and the indicator engine
(`backend/tasks/indicators.py`), as shallow Lean embeddings.

Conventions of the embedding:
* prices and indicator values are `ℚ` (the source works with SQL numerics
  converted to Python floats; exact rational arithmetic stands in for them);
* timestamps are `ℚ`, measured in days, so `timedelta(days=k)` is the
  literal `k`;
* SQL `NULL` is `Option.none`; pandas `NaN` is likewise `Option.none`;
* the boolean-string columns (`is_active = 'true' / 'false'`) are `Bool`;
* a database query result is passed in as the list of rows it returns,
  in the order the query's `ORDER BY` produces.
-/

namespace Trading

/-! ## Candle store rows (`backend/models/candle.py`) -/

/-- One daily OHLCV candle of an asset (`Candle` model).  Only `ts` and
`close` are read by the dashboard; the remaining numeric columns are carried
for completeness. -/
structure Candle where
  ts : ℚ
  open_price : ℚ
  high : ℚ
  low : ℚ
  close : ℚ
  volume : ℚ
deriving DecidableEq

/-- Builds a candle the way `test_dashboard.py` builds its fixtures:
open/high/low derived from the close. -/
def mkCandle (ts close : ℚ) : Candle :=
  ⟨ts, close * 99 / 100, close * 101 / 100, close * 98 / 100, close, 1000000⟩

/-! ## Dashboard helpers (`backend/api/dashboard_routes.py`, lines 20-69) -/

/-- `calculate_percentage_change` (lines 20-24): `None` when the previous
price is `None` or zero, else `(current - previous) / previous * 100`. -/
def calculate_percentage_change (current : ℚ) (previous : Option ℚ) : Option ℚ :=
  match previous with
  | none => none
  | some p => if p = 0 then none else some ((current - p) / p * 100)

/-- The row returned by `query ... Candle.ts <= target ORDER BY ts DESC
LIMIT 1`: the candle with the greatest timestamp not exceeding `target`.
Timestamps are unique per (asset, interval), so the fold is deterministic. -/
def latestLE (candles : List Candle) (target : ℚ) : Option Candle :=
  candles.foldl
    (fun acc c =>
      if c.ts ≤ target then
        match acc with
        | none => some c
        | some b => if b.ts < c.ts then some c else some b
      else acc)
    none

/-- `get_price_at_date` (lines 27-37): close of the latest candle at or
before the target date, `None` when no such candle exists. -/
def get_price_at_date (candles : List Candle) (target : ℚ) : Option ℚ :=
  (latestLE candles target).map (fun c => c.close)

/-- The row returned by `query ... ORDER BY ts DESC LIMIT 1`: the candle
with the greatest timestamp. -/
def latest_candle (candles : List Candle) : Option Candle :=
  candles.foldl
    (fun acc c =>
      match acc with
      | none => some c
      | some b => if b.ts < c.ts then some c else some b)
    none

/-- Insertion step of an ascending-by-timestamp sort (the `ORDER BY ts ASC`
of the sparkline query). -/
def insertByTs (c : Candle) : List Candle → List Candle
  | [] => [c]
  | d :: ds => if c.ts ≤ d.ts then c :: d :: ds else d :: insertByTs c ds

/-- Ascending-by-timestamp sort. -/
def sortByTsAsc (l : List Candle) : List Candle :=
  l.foldr insertByTs []

/-- `get_sparkline_data` (lines 58-69): closes of the candles from the last
30 days before `now`, ascending by timestamp. -/
def get_sparkline_data (now : ℚ) (candles : List Candle) : List ℚ :=
  (sortByTsAsc (candles.filter (fun c => now - 30 ≤ c.ts))).map (fun c => c.close)

/-- `get_moving_average` (lines 40-55): mean of the `days` most recent
closes among candles newer than `now - 2*days`; `None` when fewer than
`days` candles qualify. -/
def get_moving_average (now : ℚ) (candles : List Candle) (days : ℕ) : Option ℚ :=
  let cs := ((sortByTsAsc (candles.filter (fun c => now - 2 * days ≤ c.ts))).reverse).take days
  if cs.length < days then none
  else some ((cs.map (fun c => c.close)).sum / days)

/-- Round-half-even to an integer, the rounding mode of Python's `round`. -/
def round_half_even (x : ℚ) : ℤ :=
  let f := ⌊x⌋
  let r := x - f
  if r < 1 / 2 then f
  else if 1 / 2 < r then f + 1
  else if f % 2 = 0 then f else f + 1

/-- Python's `round(x, 2)`. -/
def round2 (x : ℚ) : ℚ :=
  (round_half_even (x * 100) : ℚ) / 100

/-! ## Dashboard per-asset records (`get_watchlist_summary`, lines 130-209) -/

/-- A watchlist item together with the daily candles of its asset (the
content of the candle store for that asset). -/
structure WatchItem where
  symbol : String
  candles : List Candle
deriving DecidableEq

/-- The per-asset record appended to `assets_data` (lines 153-204).  The
copied metadata columns (name, sector, ...) are omitted; `symbol`
identifies the asset. -/
structure AssetRecord where
  symbol : String
  last_price : Option ℚ
  change_1d : Option ℚ
  change_1w : Option ℚ
  change_1m : Option ℚ
  change_1y : Option ℚ
  sparkline : List ℚ
  data_status : String
deriving DecidableEq

/-- Body of the per-item loop of `get_watchlist_summary` (lines 140-204).
`now` is the wall-clock `datetime.now(timezone.utc)` captured at line 86;
the lookback targets are `now - 1/7/30/365` (lines 131-134). -/
def processItem (now : ℚ) (w : WatchItem) : AssetRecord :=
  match latest_candle w.candles with
  | none =>
    { symbol := w.symbol, last_price := none,
      change_1d := none, change_1w := none, change_1m := none, change_1y := none,
      sparkline := [], data_status := "no_data" }
  | some lc =>
    let current := lc.close
    { symbol := w.symbol
      last_price := some (round2 current)
      change_1d := (calculate_percentage_change current (get_price_at_date w.candles (now - 1))).map round2
      change_1w := (calculate_percentage_change current (get_price_at_date w.candles (now - 7))).map round2
      change_1m := (calculate_percentage_change current (get_price_at_date w.candles (now - 30))).map round2
      change_1y := (calculate_percentage_change current (get_price_at_date w.candles (now - 365))).map round2
      sparkline := get_sparkline_data now w.candles
      data_status := "ok" }

/-- The `assets_data` list built by `get_watchlist_summary`. -/
def assets_data (now : ℚ) (items : List WatchItem) : List AssetRecord :=
  items.map (processItem now)

/-- The `watchlist_index` of `get_watchlist_summary` (lines 184-209): mean
of `current / MA200` over the assets with a positive 200-day moving
average, scaled by 100 and rounded; `None` when no asset qualifies. -/
def watchlist_index (now : ℚ) (items : List WatchItem) : Option ℚ :=
  let normalized := items.filterMap (fun w =>
    match latest_candle w.candles with
    | none => none
    | some lc =>
      match get_moving_average now w.candles 200 with
      | none => none
      | some m => if m ≠ 0 ∧ 0 < m then some (lc.close / m) else none)
  if normalized = [] then none
  else some (round2 (normalized.sum / normalized.length * 100))

/-- Modelled from the spec's words (§4.3), for comparison with the code:
the percentage change anchored to `T0`, the timestamp of the asset's
latest candle, rather than to the wall clock. -/
def spec_anchored_change (candles : List Candle) (lookback : ℚ) : Option ℚ :=
  match latest_candle candles with
  | none => none
  | some lc =>
    (calculate_percentage_change lc.close (get_price_at_date candles (lc.ts - lookback))).map round2

/-- The candle fixture of
`test_dashboard.test_dashboard_percentage_changes_anchored_to_latest_candle`:
closes 110, 100, 90, 80 at the anchor date and 1, 7, 30 days before it
(the anchor date is day 0 here). -/
def anchoredFixture : WatchItem :=
  { symbol := "PCTTEST",
    candles := [mkCandle 0 110, mkCandle (-1) 100, mkCandle (-7) 90, mkCandle (-30) 80] }

/-- An empty-store watchlist item: an asset with no candles at all. -/
def emptyItem : WatchItem := { symbol := "EMPTY", candles := [] }

/-! ## Signal engine (`backend/tasks/signals.py`) -/

/-- An indicator row as read by `compute_signals` (the `Indicator` model):
name, timestamp, primary and secondary numeric value (`value3` is unused
by the signal engine). -/
structure IndRow where
  name : String
  ts : ℚ
  value : Option ℚ
  value2 : Option ℚ
deriving DecidableEq

/-- Python truthiness of a nullable numeric column, as used by the guards
`if rsi and rsi.value:` etc. (lines 100, 111, 124): `None` and `0` are
falsy. -/
def truthy : Option ℚ → Bool
  | none => false
  | some v => v != 0

/-- One rationale fragment (the code builds formatted strings at lines
105, 108, 118, 121, 131, 134, 159; the embedding keeps them as tagged
values carrying the formatted number where one appears). -/
inductive RPart where
  | rsiOversold (v : ℚ)
  | rsiOverbought (v : ℚ)
  | smaBullish
  | smaBearish
  | macdBullish
  | macdBearish
  | mixed
deriving DecidableEq

/-- The final `rationale` column (line 182): the `'; '`-joined fragments
when any exist, else the `'No clear signals'` fallback text. -/
inductive RatText where
  | joined (parts : List RPart)
  | noClear
deriving DecidableEq

/-- Whether a fragment list carries the mixed-signals note. -/
def hasMixed : List RPart → Bool
  | [] => false
  | .mixed :: _ => true
  | _ :: rest => hasMixed rest

/-- Whether the rationale text notes mixed signals. -/
def RatText.notesMixed : RatText → Bool
  | .joined ps => hasMixed ps
  | .noClear => false

/-- Whether the rationale is the `'No clear signals'` text. -/
def RatText.isNoClear : RatText → Bool
  | .noClear => true
  | .joined _ => false

/-- `SignalType` enumeration (`backend/models/signal.py`). -/
inductive SignalType where
  | strong_sell
  | sell
  | hold
  | buy
  | strong_buy
deriving DecidableEq

/-- `SignalStrength` enumeration (`backend/models/signal.py`). -/
inductive SignalStrength where
  | weak
  | moderate
  | strong
deriving DecidableEq

/-- Vote accumulator of the per-asset strategy (lines 92-97). -/
structure VoteState where
  buy_signals : ℕ
  sell_signals : ℕ
  rationale_parts : List RPart
  indicators_used : List String
deriving DecidableEq

/-- Initial vote state (lines 92-97). -/
def initVotes : VoteState := ⟨0, 0, [], []⟩

/-- RSI analysis (lines 99-108): requires the RSI row present with a truthy
value; oversold below 30, overbought above 70. -/
def rsiRule (rsi : Option IndRow) (vs : VoteState) : VoteState :=
  match rsi with
  | none => vs
  | some r =>
    if truthy r.value then
      let used := vs.indicators_used ++ ["RSI_14"]
      let v := r.value.getD 0
      if v < 30 then
        { vs with buy_signals := vs.buy_signals + 1,
                  rationale_parts := vs.rationale_parts ++ [.rsiOversold v],
                  indicators_used := used }
      else if 70 < v then
        { vs with sell_signals := vs.sell_signals + 1,
                  rationale_parts := vs.rationale_parts ++ [.rsiOverbought v],
                  indicators_used := used }
      else { vs with indicators_used := used }
    else vs

/-- Moving-average crossover (lines 110-121): requires both SMA rows with
truthy values. -/
def smaRule (sma_20 sma_50 : Option IndRow) (vs : VoteState) : VoteState :=
  match sma_20, sma_50 with
  | some a, some b =>
    if truthy a.value && truthy b.value then
      let used := vs.indicators_used ++ ["SMA_20", "SMA_50"]
      let v20 := a.value.getD 0
      let v50 := b.value.getD 0
      if v50 < v20 then
        { vs with buy_signals := vs.buy_signals + 1,
                  rationale_parts := vs.rationale_parts ++ [.smaBullish],
                  indicators_used := used }
      else if v20 < v50 then
        { vs with sell_signals := vs.sell_signals + 1,
                  rationale_parts := vs.rationale_parts ++ [.smaBearish],
                  indicators_used := used }
      else { vs with indicators_used := used }
    else vs
  | _, _ => vs

/-- MACD analysis (lines 123-134): requires the MACD row with truthy line
and signal-line values. -/
def macdRule (macd : Option IndRow) (vs : VoteState) : VoteState :=
  match macd with
  | none => vs
  | some m =>
    if truthy m.value && truthy m.value2 then
      let used := vs.indicators_used ++ ["MACD_12_26_9"]
      let line := m.value.getD 0
      let sig := m.value2.getD 0
      if sig < line ∧ 0 < line then
        { vs with buy_signals := vs.buy_signals + 1,
                  rationale_parts := vs.rationale_parts ++ [.macdBullish],
                  indicators_used := used }
      else if line < sig ∧ line < 0 then
        { vs with sell_signals := vs.sell_signals + 1,
                  rationale_parts := vs.rationale_parts ++ [.macdBearish],
                  indicators_used := used }
      else { vs with indicators_used := used }
    else vs

/-- The deduplicated per-name lookup (lines 77-86): `indicator_map` keeps
the first row per name of the descending-by-timestamp query result, so
`indicator_map.get(name)` is `find?` on the list. -/
def indicator_map (inds : List IndRow) (n : String) : Option IndRow :=
  inds.find? (fun r => r.name == n)

/-- The three rules evaluated in source order on the deduplicated
indicators of one asset (lines 82-134). -/
def evalRulesOn (inds : List IndRow) : VoteState :=
  macdRule (indicator_map inds "MACD_12_26_9")
    (smaRule (indicator_map inds "SMA_20") (indicator_map inds "SMA_50")
      (rsiRule (indicator_map inds "RSI_14") initVotes))

/-- Signal type, strength, confidence and final rationale parts from the
vote counts (lines 136-159); the tie branch appends the mixed-signals
fragment. -/
structure SignalDecision where
  signal_type : SignalType
  strength : SignalStrength
  confidence : ℚ
  parts : List RPart
deriving DecidableEq

/-- Aggregation of the votes (lines 136-159). -/
def decideVotes (vs : VoteState) : SignalDecision :=
  if vs.sell_signals < vs.buy_signals then
    if 3 ≤ vs.buy_signals then ⟨.strong_buy, .strong, 75, vs.rationale_parts⟩
    else ⟨.buy, .moderate, 60, vs.rationale_parts⟩
  else if vs.buy_signals < vs.sell_signals then
    if 3 ≤ vs.sell_signals then ⟨.strong_sell, .strong, 75, vs.rationale_parts⟩
    else ⟨.sell, .moderate, 60, vs.rationale_parts⟩
  else ⟨.hold, .weak, 50, vs.rationale_parts ++ [.mixed]⟩

/-- The `rationale` value persisted on the new row (line 182). -/
def mkRationale (parts : List RPart) : RatText :=
  if parts = [] then .noClear else .joined parts

/-- A `Signal` row (`backend/models/signal.py`; only the columns the task
writes or reads). -/
structure Signal where
  asset_id : ℕ
  ts : ℚ
  signal_type : SignalType
  strength : SignalStrength
  confidence : ℚ
  rationale : RatText
  indicators_used : List String
  is_active : Bool
deriving DecidableEq

/-- Maximum indicator timestamp (line 172, `max(ind.ts ...)`; only called
on a non-empty list). -/
def maxTs : List IndRow → ℚ
  | [] => 0
  | r :: rs => rs.foldl (fun m x => max m x.ts) r.ts

/-- The new signal built for an asset from its recent indicators, or `none`
when `indicators_used` is empty and the creation block (lines 162-190) is
skipped. -/
def buildSignal (aid : ℕ) (inds : List IndRow) : Option Signal :=
  let vs := evalRulesOn inds
  if vs.indicators_used = [] then none
  else
    let d := decideVotes vs
    some { asset_id := aid, ts := maxTs inds, signal_type := d.signal_type,
           strength := d.strength, confidence := d.confidence,
           rationale := mkRationale d.parts,
           indicators_used := vs.indicators_used, is_active := true }

/-- Marking every active signal of the asset inactive (lines 163-169). -/
def deactivateFor (aid : ℕ) (rows : List Signal) : List Signal :=
  rows.map (fun s => if s.asset_id == aid && s.is_active then { s with is_active := false } else s)

/-- One asset as presented to the batch: id, symbol, active flag, and the
outcome of its per-asset work — the recent-indicator query result, or the
exception it raises (the per-asset `try` at lines 64-197 catches it). -/
structure AssetProc where
  aid : ℕ
  symbol : String
  is_active : Bool
  behavior : Except String (List IndRow)

/-- Mutable state of one `compute_signals` run: the `results` dictionary
plus the signals table of the session. -/
structure SignalRun where
  processed_assets : ℕ
  signals_created : ℕ
  errors : List String
  table : List Signal
deriving DecidableEq

/-- The per-asset loop body (lines 63-197). -/
def stepAsset (acc : SignalRun) (a : AssetProc) : SignalRun :=
  match a.behavior with
  | .error e =>
    { acc with errors := acc.errors ++ ["Error processing " ++ a.symbol ++ ": " ++ e] }
  | .ok inds =>
    if inds = [] then acc
    else
      match buildSignal a.aid inds with
      | some sig =>
        { acc with table := deactivateFor a.aid acc.table ++ [sig],
                   signals_created := acc.signals_created + 1,
                   processed_assets := acc.processed_assets + 1 }
      | none => { acc with processed_assets := acc.processed_assets + 1 }

/-- The whole per-asset loop. -/
def runLoop (assets : List AssetProc) (acc : SignalRun) : SignalRun :=
  assets.foldl stepAsset acc

/-- The result dictionary returned by `compute_signals` (lines 46-50). -/
structure SignalResults where
  processed_assets : ℕ
  signals_created : ℕ
  errors : List String
deriving DecidableEq

/-- What a batch entrypoint returns: the structured result together with
the committed signals table, or the `{'error': ...}` object (lines 57,
206). -/
inductive SignalOutcome where
  | ok (results : SignalResults) (table : List Signal)
  | err (msg : String)

/-- `compute_signals` (lines 33-206): select the assets (a single one by
id — returning the error object when it does not exist — or all active
ones), run the loop, and return the results with the new table. -/
def compute_signals (asset_id : Option ℕ) (assets : List AssetProc) (table : List Signal) :
    SignalOutcome :=
  let finish := fun (s : SignalRun) =>
    SignalOutcome.ok ⟨s.processed_assets, s.signals_created, s.errors⟩ s.table
  match asset_id with
  | some aid =>
    match assets.find? (fun x => x.aid == aid) with
    | none => .err ("Asset " ++ toString aid ++ " not found")
    | some a => finish (runLoop [a] ⟨0, 0, [], table⟩)
  | none => finish (runLoop (assets.filter (fun x => x.is_active)) ⟨0, 0, [], table⟩)

/-! ### Per-asset contributions, used to decompose a run -/

/-- Contribution of one asset to `processed_assets`. -/
def procContrib (a : AssetProc) : ℕ :=
  match a.behavior with
  | .error _ => 0
  | .ok inds => if inds = [] then 0 else 1

/-- Contribution of one asset to `signals_created`. -/
def createdContrib (a : AssetProc) : ℕ :=
  match a.behavior with
  | .error _ => 0
  | .ok inds =>
    if inds = [] then 0
    else match buildSignal a.aid inds with
      | some _ => 1
      | none => 0

/-- Contribution of one asset to the error list. -/
def errContrib (a : AssetProc) : List String :=
  match a.behavior with
  | .error e => ["Error processing " ++ a.symbol ++ ": " ++ e]
  | .ok _ => []

/-- Effect of one asset on the signals table. -/
def tableStep (a : AssetProc) (t : List Signal) : List Signal :=
  match a.behavior with
  | .error _ => t
  | .ok inds =>
    if inds = [] then t
    else match buildSignal a.aid inds with
      | some sig => deactivateFor a.aid t ++ [sig]
      | none => t

/-- Table effect of a whole asset list. -/
def tableFold (assets : List AssetProc) (t : List Signal) : List Signal :=
  assets.foldl (fun acc a => tableStep a acc) t

/-- Sum of `processed_assets` contributions. -/
def procSum (assets : List AssetProc) : ℕ :=
  (assets.map procContrib).sum

/-- Sum of `signals_created` contributions. -/
def createdSum (assets : List AssetProc) : ℕ :=
  (assets.map createdContrib).sum

/-- Concatenated error messages of an asset list. -/
def errsOf (assets : List AssetProc) : List String :=
  (assets.map errContrib).flatten

/-! ## Indicator engine (`backend/tasks/indicators.py`) -/

/-- The last row of the computed indicator columns (lines 96-128): the
value of each indicator series at the latest candle, `none` for NaN.
These series come from the external `ta` library, which is not repository
code; a run is therefore parameterised by the function producing them. -/
structure IndVals where
  sma_20 : Option ℚ
  sma_50 : Option ℚ
  ema_20 : Option ℚ
  ema_50 : Option ℚ
  rsi_14 : Option ℚ
  macd : Option ℚ
  macd_signal : Option ℚ
  macd_diff : Option ℚ
  bb_mid : Option ℚ
  bb_high : Option ℚ
  bb_low : Option ℚ
  atr_14 : Option ℚ
  obv : Option ℚ
deriving DecidableEq

/-- One entry of `indicator_definitions` (lines 131-145): the row name and
the three value slots.  The indicator-type tag and the parameter dictionary
are constant metadata and omitted. -/
structure IndDef where
  name : String
  value : Option ℚ
  value2 : Option ℚ
  value3 : Option ℚ
deriving DecidableEq

/-- The `indicator_definitions` list (lines 131-145). -/
def indicator_definitions (v : IndVals) : List IndDef :=
  [⟨"SMA_20", v.sma_20, none, none⟩,
   ⟨"SMA_50", v.sma_50, none, none⟩,
   ⟨"EMA_20", v.ema_20, none, none⟩,
   ⟨"EMA_50", v.ema_50, none, none⟩,
   ⟨"RSI_14", v.rsi_14, none, none⟩,
   ⟨"MACD_12_26_9", v.macd, v.macd_signal, v.macd_diff⟩,
   ⟨"BBANDS_20_2", v.bb_mid, v.bb_high, v.bb_low⟩,
   ⟨"ATR_14", v.atr_14, none, none⟩,
   ⟨"OBV", v.obv, none, none⟩]

/-- A persisted `Indicator` row (lines 149-160).  A row is only written
when the primary value is not NaN, so its `value` column is total; the
secondary slots stay nullable. -/
structure IndicatorRow where
  asset_id : ℕ
  ts : ℚ
  name : String
  value : ℚ
  value2 : Option ℚ
  value3 : Option ℚ
deriving DecidableEq

/-- The persistence loop with its `pd.notna(value)` guard (lines 147-161). -/
def mkRows (aid : ℕ) (ts : ℚ) (v : IndVals) : List IndicatorRow :=
  (indicator_definitions v).filterMap (fun d =>
    d.value.map (fun x => ⟨aid, ts, d.name, x, d.value2, d.value3⟩))

/-- One asset as presented to `compute_indicators`: id, symbol, active
flag, and the daily-candle query result (ascending by timestamp) or the
exception its processing raises (caught by the per-asset `try` at lines
67-169). -/
structure IndAssetProc where
  aid : ℕ
  symbol : String
  is_active : Bool
  behavior : Except String (List Candle)

/-- Mutable state of one `compute_indicators` run: the `results`
dictionary plus the indicator rows added to the session. -/
structure IndicatorRun where
  processed_assets : ℕ
  indicators_created : ℕ
  errors : List String
  rows : List IndicatorRow
deriving DecidableEq

/-- Per-asset body of `compute_indicators` (lines 66-169): skip the asset
when fewer than 20 candles are available, else persist the non-NaN latest
indicator values at the last candle's timestamp (`df.index[-1]`). -/
def indStep (taOut : List Candle → IndVals) (acc : IndicatorRun) (a : IndAssetProc) :
    IndicatorRun :=
  match a.behavior with
  | .error e =>
    { acc with errors := acc.errors ++ ["Error processing " ++ a.symbol ++ ": " ++ e] }
  | .ok candles =>
    if candles.length < 20 then acc
    else
      let ts := ((candles.map (fun c => c.ts)).getLast?).getD 0
      let rows := mkRows a.aid ts (taOut candles)
      { acc with rows := acc.rows ++ rows,
                 indicators_created := acc.indicators_created + rows.length,
                 processed_assets := acc.processed_assets + 1 }

/-- The whole per-asset loop of `compute_indicators`. -/
def indRunLoop (taOut : List Candle → IndVals) (assets : List IndAssetProc)
    (acc : IndicatorRun) : IndicatorRun :=
  assets.foldl (indStep taOut) acc

/-- The result dictionary returned by `compute_indicators` (lines 49-53). -/
structure IndicatorResults where
  processed_assets : ℕ
  indicators_created : ℕ
  errors : List String
deriving DecidableEq

/-- Return value of `compute_indicators`: the structured result with the
committed rows, or the `{'error': ...}` object (lines 60, 178). -/
inductive IndicatorOutcome where
  | ok (results : IndicatorResults) (rows : List IndicatorRow)
  | err (msg : String)

/-- `compute_indicators` (lines 35-178): select the assets (a single one
by id — returning the error object when it does not exist — or all active
ones), run the loop, and return the results with the created rows. -/
def compute_indicators (taOut : List Candle → IndVals) (asset_id : Option ℕ)
    (assets : List IndAssetProc) : IndicatorOutcome :=
  let finish := fun (s : IndicatorRun) =>
    IndicatorOutcome.ok ⟨s.processed_assets, s.indicators_created, s.errors⟩ s.rows
  match asset_id with
  | some aid =>
    match assets.find? (fun x => x.aid == aid) with
    | none => .err ("Asset " ++ toString aid ++ " not found")
    | some a => finish (indRunLoop taOut [a] ⟨0, 0, [], []⟩)
  | none => finish (indRunLoop taOut (assets.filter (fun x => x.is_active)) ⟨0, 0, [], []⟩)

/-- Contribution of one asset to `processed_assets` of an indicator run. -/
def indProcContrib (a : IndAssetProc) : ℕ :=
  match a.behavior with
  | .error _ => 0
  | .ok candles => if candles.length < 20 then 0 else 1

/-- Rows contributed by one asset of an indicator run. -/
def indRowsContrib (taOut : List Candle → IndVals) (a : IndAssetProc) : List IndicatorRow :=
  match a.behavior with
  | .error _ => []
  | .ok candles =>
    if candles.length < 20 then []
    else mkRows a.aid (((candles.map (fun c => c.ts)).getLast?).getD 0) (taOut candles)

/-- Contribution of one asset to the error list of an indicator run. -/
def indErrContrib (a : IndAssetProc) : List String :=
  match a.behavior with
  | .error e => ["Error processing " ++ a.symbol ++ ": " ++ e]
  | .ok _ => []

/-- Sum of `processed_assets` contributions of an indicator run. -/
def indProcSum (assets : List IndAssetProc) : ℕ :=
  (assets.map indProcContrib).sum

/-- Concatenated created rows of an indicator run. -/
def indRowsOf (taOut : List Candle → IndVals) (assets : List IndAssetProc) :
    List IndicatorRow :=
  (assets.map (indRowsContrib taOut)).flatten

/-- Concatenated error messages of an indicator run. -/
def indErrsOf (assets : List IndAssetProc) : List String :=
  (assets.map indErrContrib).flatten

/-! ## Concrete fixtures used by witnesses and counterexamples -/

/-- An RSI row with the neutral value 50: evaluated, but no vote. -/
def rsiNeutralRow : IndRow := ⟨"RSI_14", 0, some 50, none⟩

/-- An RSI row whose value is exactly 0 — below the oversold threshold,
but falsy for the `if rsi and rsi.value:` guard. -/
def rsiZeroRow : IndRow := ⟨"RSI_14", 0, some 0, none⟩

/-- An RSI row with the oversold value 25. -/
def rsiOversoldRow : IndRow := ⟨"RSI_14", 0, some 25, none⟩

/-- An SMA_20 row above the SMA_50 row below. -/
def sma20Row : IndRow := ⟨"SMA_20", 0, some 10, none⟩

/-- The SMA_50 row paired with `sma20Row`. -/
def sma50Row : IndRow := ⟨"SMA_50", 0, some 5, none⟩

/-- A pre-existing active signal of asset 7. -/
def oldActiveSignal : Signal :=
  ⟨7, -1, .sell, .moderate, 60, .joined [.smaBearish], ["SMA_20", "SMA_50"], true⟩

/-- A pre-existing inactive signal of asset 7. -/
def oldInactiveSignal : Signal :=
  ⟨7, -2, .buy, .moderate, 60, .joined [.smaBullish], ["SMA_20", "SMA_50"], false⟩

/-- Asset 7 with indicators that vote buy twice. -/
def goodAsset : AssetProc := ⟨7, "AAPL", true, .ok [rsiOversoldRow, sma20Row, sma50Row]⟩

/-- Asset 7 with one recent indicator row that no rule can use. -/
def votelessAsset : AssetProc := ⟨7, "AAPL", true, .ok [rsiZeroRow]⟩

/-- An asset whose per-asset processing raises. -/
def failAsset : AssetProc := ⟨8, "FAIL", true, .error "boom"⟩

/-- `n` one-per-day test candles ending at day 0. -/
def mkTestCandles (n : ℕ) : List Candle :=
  (List.range n).map (fun i => mkCandle (i - (n - 1) : ℤ) 100)

/-- An asset with only 5 daily candles — below the 20-candle minimum. -/
def shortDataAsset : IndAssetProc := ⟨1, "SHRT", true, .ok (mkTestCandles 5)⟩

/-- An asset with 25 daily candles. -/
def okDataAsset : IndAssetProc := ⟨2, "OKAY", true, .ok (mkTestCandles 25)⟩

/-- Indicator values where only SMA_20 is defined; everything else NaN. -/
def onlySma20Vals : IndVals :=
  ⟨some 5, none, none, none, none, none, none, none, none, none, none, none, none⟩

/-- A `ta`-output function returning `onlySma20Vals` for every input. -/
def constTa : List Candle → IndVals := fun _ => onlySma20Vals

/-- Modelled from the spec's words (§4.2 aggregation), for comparison with
the code: the (signal_type, strength, confidence) triple prescribed for a
vote pair. -/
def claim_vote_aggregate (b s : ℕ) : SignalType × SignalStrength × ℚ :=
  if s < b then
    if 3 ≤ b then (.strong_buy, .strong, 75) else (.buy, .moderate, 60)
  else if b < s then
    if 3 ≤ s then (.strong_sell, .strong, 75) else (.sell, .moderate, 60)
  else (.hold, .weak, 50)

/-! ## Theorems -/

/-- Claim C1.  The claim says the four lookback reference dates are anchored
to `T0`, the timestamp of the asset's latest daily candle.  The code anchors
them to the wall-clock `now` of the request (dashboard_routes.py lines 86,
131-134), contradicting the repository's own test
`test_dashboard_percentage_changes_anchored_to_latest_candle`.  On that
test's candle fixture, evaluated 30 days after the anchor date, the code
reports `change_1d = change_1w = change_1m = 0` while the `T0`-anchored
values the claim (and the test) prescribe are 10, 22.22 and 37.5. -/
theorem dashboard_changes_wall_clock_anchored_C1 :
    (processItem 30 anchoredFixture).change_1d = some 0
    ∧ (processItem 30 anchoredFixture).change_1w = some 0
    ∧ (processItem 30 anchoredFixture).change_1m = some 0
    ∧ (processItem 30 anchoredFixture).change_1y = none
    ∧ spec_anchored_change anchoredFixture.candles 1 = some 10
    ∧ spec_anchored_change anchoredFixture.candles 7 = some (1111 / 50)
    ∧ spec_anchored_change anchoredFixture.candles 30 = some (75 / 2)
    ∧ spec_anchored_change anchoredFixture.candles 365 = none := by
  refine ⟨?_, ?_, ?_, ?_, ?_, ?_, ?_, ?_⟩ <;>
    norm_num [processItem, anchoredFixture, mkCandle, latest_candle, latestLE, get_price_at_date,
      calculate_percentage_change, spec_anchored_change, round2, round_half_even,
      get_sparkline_data, sortByTsAsc, insertByTs, List.foldl, List.foldr, List.filter]

/-- Claim C5.  `calculate_percentage_change` returns `None` exactly when the
previous price is `None` or zero, and otherwise returns exactly
`(current - previous) / previous * 100`. -/
theorem pct_null_iff_C5 (current : ℚ) (previous : Option ℚ) :
    (calculate_percentage_change current previous = none ↔ previous = none ∨ previous = some 0)
    ∧ ∀ p, previous = some p → p ≠ 0 →
        calculate_percentage_change current previous = some ((current - p) / p * 100) := by
  constructor
  · cases previous with
    | none => simp [calculate_percentage_change]
    | some p => by_cases hp : p = 0 <;> simp [calculate_percentage_change, hp]
  · rintro p rfl hp
    simp [calculate_percentage_change, hp]

/-- Witness for C5 at a concrete input: previous price 100, current 110. -/
theorem pct_null_iff_C5_witness :
    (100 : ℚ) ≠ 0 ∧ calculate_percentage_change 110 (some 100) = some ((110 - 100) / 100 * 100) :=
  ⟨by norm_num, (pct_null_iff_C5 110 (some 100)).2 100 rfl (by norm_num)⟩

/-- Claim C8.  An asset with no candles yields a record with null price,
null changes, empty sparkline and status `no_data`, while the records of
the assets before and after it in the watchlist are exactly what their own
data produces. -/
theorem no_data_record_C8 (now : ℚ) (pre post : List WatchItem) (w : WatchItem)
    (hw : w.candles = []) :
    assets_data now (pre ++ w :: post)
      = assets_data now pre
        ++ ({ symbol := w.symbol, last_price := none, change_1d := none, change_1w := none,
              change_1m := none, change_1y := none, sparkline := [],
              data_status := "no_data" } : AssetRecord) :: assets_data now post := by
  have hpi : processItem now w
      = { symbol := w.symbol, last_price := none, change_1d := none, change_1w := none,
          change_1m := none, change_1y := none, sparkline := [], data_status := "no_data" } := by
    unfold processItem
    rw [hw]
    rfl
  unfold assets_data
  rw [List.map_append, List.map_cons, hpi]

/-- Witness for C8: a candle-less asset between two populated assets. -/
theorem no_data_record_C8_witness :
    assets_data 30 ([anchoredFixture] ++ emptyItem :: [anchoredFixture])
      = assets_data 30 [anchoredFixture]
        ++ ({ symbol := "EMPTY", last_price := none, change_1d := none, change_1w := none,
              change_1m := none, change_1y := none, sparkline := [],
              data_status := "no_data" } : AssetRecord) :: assets_data 30 [anchoredFixture] :=
  no_data_record_C8 30 [anchoredFixture] [anchoredFixture] emptyItem rfl

/-! ### Decomposition of a signal run into per-asset contributions -/

theorem stepAsset_decomp (acc : SignalRun) (a : AssetProc) :
    stepAsset acc a =
      ⟨acc.processed_assets + procContrib a, acc.signals_created + createdContrib a,
       acc.errors ++ errContrib a, tableStep a acc.table⟩ := by
  obtain ⟨p, c, E, T⟩ := acc
  cases hb : a.behavior with
  | error e => simp [stepAsset, procContrib, createdContrib, errContrib, tableStep, hb]
  | ok inds =>
    by_cases hi : inds = []
    · simp [stepAsset, procContrib, createdContrib, errContrib, tableStep, hb, hi]
    · cases hbs : buildSignal a.aid inds <;>
        simp [stepAsset, procContrib, createdContrib, errContrib, tableStep, hb, hi, hbs]

theorem runLoop_decomp (assets : List AssetProc) (acc : SignalRun) :
    runLoop assets acc =
      ⟨acc.processed_assets + procSum assets, acc.signals_created + createdSum assets,
       acc.errors ++ errsOf assets, tableFold assets acc.table⟩ := by
  induction assets generalizing acc with
  | nil => simp [runLoop, procSum, createdSum, errsOf, tableFold]
  | cons a rest ih =>
    have h1 : runLoop (a :: rest) acc = runLoop rest (stepAsset acc a) := rfl
    rw [h1, ih, stepAsset_decomp]
    simp [procSum, createdSum, errsOf, tableFold, Nat.add_assoc]

theorem procSum_append (l₁ l₂ : List AssetProc) :
    procSum (l₁ ++ l₂) = procSum l₁ + procSum l₂ := by
  simp [procSum]

theorem createdSum_append (l₁ l₂ : List AssetProc) :
    createdSum (l₁ ++ l₂) = createdSum l₁ + createdSum l₂ := by
  simp [createdSum]

theorem errsOf_append (l₁ l₂ : List AssetProc) :
    errsOf (l₁ ++ l₂) = errsOf l₁ ++ errsOf l₂ := by
  simp [errsOf]

theorem tableFold_append (l₁ l₂ : List AssetProc) (t : List Signal) :
    tableFold (l₁ ++ l₂) t = tableFold l₂ (tableFold l₁ t) := by
  simp [tableFold, List.foldl_append]

theorem tableFold_cons (a : AssetProc) (l : List AssetProc) (t : List Signal) :
    tableFold (a :: l) t = tableFold l (tableStep a t) := rfl

/-! ### Facts about `buildSignal` and `deactivateFor` -/

theorem buildSignal_fields (aid : ℕ) (inds : List IndRow) (sig : Signal)
    (h : buildSignal aid inds = some sig) :
    sig.asset_id = aid ∧ sig.is_active = true := by
  unfold buildSignal at h
  by_cases hu : (evalRulesOn inds).indicators_used = []
  · rw [if_pos hu] at h
    cases h
  · rw [if_neg hu] at h
    cases h
    exact ⟨rfl, rfl⟩

theorem evalRulesOn_nil : evalRulesOn [] = initVotes := rfl

theorem buildSignal_some_of_used (aid : ℕ) (inds : List IndRow)
    (h : (evalRulesOn inds).indicators_used ≠ []) :
    buildSignal aid inds
      = some { asset_id := aid, ts := maxTs inds,
               signal_type := (decideVotes (evalRulesOn inds)).signal_type,
               strength := (decideVotes (evalRulesOn inds)).strength,
               confidence := (decideVotes (evalRulesOn inds)).confidence,
               rationale := mkRationale (decideVotes (evalRulesOn inds)).parts,
               indicators_used := (evalRulesOn inds).indicators_used, is_active := true } := by
  unfold buildSignal
  rw [if_neg h]

theorem deact_self (s : Signal) (h : s.is_active = false) :
    { s with is_active := false } = s := by
  cases s
  simp_all

theorem deact_asset_id (s : Signal) :
    (Signal.asset_id { s with is_active := false }) = s.asset_id := rfl

theorem deactivateFor_filter_ne (aid a' : ℕ) (h : a' ≠ aid) (t : List Signal) :
    (deactivateFor a' t).filter (fun s => s.asset_id == aid)
      = t.filter (fun s => s.asset_id == aid) := by
  unfold deactivateFor
  rw [List.filter_map]
  have hfun : ((fun s : Signal => s.asset_id == aid) ∘
      (fun s : Signal => if s.asset_id == a' && s.is_active then { s with is_active := false } else s))
      = (fun s : Signal => s.asset_id == aid) := by
    funext s
    simp only [Function.comp_apply]
    split <;> rfl
  rw [hfun]
  have hid : ∀ s ∈ t.filter (fun s : Signal => s.asset_id == aid),
      (if s.asset_id == a' && s.is_active then { s with is_active := false } else s) = s := by
    intro s hs
    have hsid : s.asset_id = aid := by
      have := (List.mem_filter.mp hs).2
      simpa using this
    have hne : (s.asset_id == a') = false := by
      simp only [beq_eq_false_iff_ne, ne_eq, hsid]
      exact fun hEq => h hEq.symm
    simp [hne]
  rw [List.map_congr_left hid]
  simp

theorem tableStep_filter_ne (aid : ℕ) (b : AssetProc) (h : b.aid ≠ aid) (t : List Signal) :
    (tableStep b t).filter (fun s => s.asset_id == aid)
      = t.filter (fun s => s.asset_id == aid) := by
  unfold tableStep
  cases hb : b.behavior with
  | error e => rfl
  | ok inds =>
    by_cases hi : inds = []
    · simp [hi]
    · simp only [hi, if_false]
      cases hbs : buildSignal b.aid inds with
      | none => rfl
      | some sig =>
        rw [List.filter_append]
        have hsid : sig.asset_id = b.aid := (buildSignal_fields b.aid inds sig hbs).1
        have : ([sig].filter (fun s : Signal => s.asset_id == aid)) = [] := by
          have hf : (sig.asset_id == aid) = false := by
            simp only [hsid, beq_eq_false_iff_ne, ne_eq]
            exact h
          simp [List.filter, hf]
        rw [this, deactivateFor_filter_ne aid b.aid h t]
        simp

theorem tableFold_filter_ne (aid : ℕ) (l : List AssetProc) (h : ∀ b ∈ l, b.aid ≠ aid)
    (t : List Signal) :
    (tableFold l t).filter (fun s => s.asset_id == aid)
      = t.filter (fun s => s.asset_id == aid) := by
  induction l generalizing t with
  | nil => rfl
  | cons b rest ih =>
    rw [tableFold_cons, ih (fun x hx => h x (List.mem_cons_of_mem b hx)),
      tableStep_filter_ne aid b (h b (List.mem_cons_self b rest)) t]

theorem tableFold_mem_ne (aid : ℕ) (l : List AssetProc) (h : ∀ b ∈ l, b.aid ≠ aid)
    (t : List Signal) (s : Signal) (hsid : s.asset_id = aid) (hs : s ∈ t) :
    s ∈ tableFold l t := by
  have hp : (fun x : Signal => x.asset_id == aid) s = true := by simp [hsid]
  have h1 : s ∈ t.filter (fun x : Signal => x.asset_id == aid) := List.mem_filter.mpr ⟨hs, hp⟩
  rw [← tableFold_filter_ne aid l h t] at h1
  exact List.mem_of_mem_filter h1

theorem tableStep_retain (a : AssetProc) (t : List Signal) (s : Signal) (hs : s ∈ t) :
    s ∈ tableStep a t ∨ { s with is_active := false } ∈ tableStep a t := by
  unfold tableStep
  cases hb : a.behavior with
  | error e => exact Or.inl hs
  | ok inds =>
    by_cases hi : inds = []
    · simp only [hi, if_true]
      exact Or.inl hs
    · simp only [hi, if_false]
      cases hbs : buildSignal a.aid inds with
      | none => exact Or.inl hs
      | some sig =>
        by_cases hc : (s.asset_id == a.aid && s.is_active) = true
        · right
          apply List.mem_append_left
          have : (if s.asset_id == a.aid && s.is_active then { s with is_active := false } else s)
              = { s with is_active := false } := if_pos hc
          rw [← this]
          exact List.mem_map_of_mem _ hs
        · left
          apply List.mem_append_left
          have : (if s.asset_id == a.aid && s.is_active then { s with is_active := false } else s)
              = s := if_neg hc
          rw [← this]
          exact List.mem_map_of_mem _ hs

theorem tableFold_retain (l : List AssetProc) :
    ∀ (t : List Signal) (s : Signal), s ∈ t →
      s ∈ tableFold l t ∨ { s with is_active := false } ∈ tableFold l t := by
  induction l with
  | nil =>
    intro t s hs
    exact Or.inl hs
  | cons b rest ih =>
    intro t s hs
    rw [tableFold_cons]
    rcases tableStep_retain b t s hs with h1 | h1
    · exact ih (tableStep b t) s h1
    · rcases ih (tableStep b t) _ h1 with h2 | h2
      · exact Or.inr h2
      · exact Or.inr h2


theorem mem_deactivateFor_self (aid : ℕ) (t : List Signal) (s : Signal)
    (hs : s ∈ t) (hA : s.is_active = false) : s ∈ deactivateFor aid t := by
  have : (if s.asset_id == aid && s.is_active then { s with is_active := false } else s) = s := by
    rw [hA]
    simp
  rw [← this]
  exact List.mem_map_of_mem _ hs

theorem mem_deactivateFor_deact (aid : ℕ) (t : List Signal) (s : Signal)
    (hs : s ∈ t) (hsid : s.asset_id = aid) :
    { s with is_active := false } ∈ deactivateFor aid t := by
  by_cases hA : s.is_active = true
  · have : (if s.asset_id == aid && s.is_active then { s with is_active := false } else s)
        = { s with is_active := false } := by
      rw [hsid, hA]
      simp
    rw [← this]
    exact List.mem_map_of_mem _ hs
  · rw [deact_self s (Bool.not_eq_true _ ▸ hA)]
    exact mem_deactivateFor_self aid t s hs (Bool.not_eq_true _ ▸ hA)

theorem deactivateFor_no_active (aid : ℕ) (t : List Signal) :
    ∀ s ∈ deactivateFor aid t, s.asset_id = aid → s.is_active = false := by
  intro s hs hsid
  simp only [deactivateFor, List.mem_map] at hs
  obtain ⟨x, hx, hfx⟩ := hs
  by_cases hc : (x.asset_id == aid && x.is_active) = true
  · rw [if_pos hc] at hfx
    rw [← hfx]
  · rw [if_neg hc] at hfx
    subst hfx
    cases hval : x.is_active with
    | false => rfl
    | true => exact absurd (by rw [hsid, hval]; simp) hc

/-- Claim C2: after a `compute_signals` run in which asset `a` receives a
new signal, exactly one signal of that asset is active in the committed
table, every previously active signal of the asset has been flipped to
inactive, and every pre-existing row of the asset is still present
(superseded, not deleted). -/
theorem signal_supersession_C2 (assets : List AssetProc) (T : List Signal)
    (pre post : List AssetProc) (a : AssetProc) (inds : List IndRow)
    (hsel : assets.filter (fun x => x.is_active) = pre ++ a :: post)
    (hb : a.behavior = Except.ok inds)
    (hused : (evalRulesOn inds).indicators_used ≠ [])
    (hpost : ∀ b ∈ post, b.aid ≠ a.aid) :
    ∃ r t, compute_signals none assets T = SignalOutcome.ok r t
      ∧ (t.filter (fun s => s.asset_id == a.aid && s.is_active)).length = 1
      ∧ ∀ s ∈ T, s.asset_id = a.aid →
          (if s.is_active then { s with is_active := false } else s) ∈ t := by
  have hne : inds ≠ [] := by
    intro hnil
    apply hused
    rw [hnil]
    rfl
  obtain ⟨sig, hsig, hsigid, hsigact⟩ :
      ∃ sig, buildSignal a.aid inds = some sig ∧ sig.asset_id = a.aid ∧ sig.is_active = true :=
    ⟨_, buildSignal_some_of_used a.aid inds hused, rfl, rfl⟩
  have hcs : compute_signals none assets T
      = SignalOutcome.ok
          ⟨procSum (pre ++ a :: post), createdSum (pre ++ a :: post), errsOf (pre ++ a :: post)⟩
          (tableFold (pre ++ a :: post) T) := by
    have h0 : compute_signals none assets T
        = SignalOutcome.ok
            ⟨(runLoop (assets.filter (fun x => x.is_active)) ⟨0, 0, [], T⟩).processed_assets,
             (runLoop (assets.filter (fun x => x.is_active)) ⟨0, 0, [], T⟩).signals_created,
             (runLoop (assets.filter (fun x => x.is_active)) ⟨0, 0, [], T⟩).errors⟩
            (runLoop (assets.filter (fun x => x.is_active)) ⟨0, 0, [], T⟩).table := rfl
    rw [h0, hsel, runLoop_decomp]
    simp
  have hY : tableFold (pre ++ a :: post) T = tableFold post (tableStep a (tableFold pre T)) := by
    rw [tableFold_append, tableFold_cons]
  have hstep : tableStep a (tableFold pre T)
      = deactivateFor a.aid (tableFold pre T) ++ [sig] := by
    unfold tableStep
    rw [hb]
    simp only [hsig, if_neg hne]
  refine ⟨_, _, hcs, ?_, ?_⟩
  · -- exactly one active signal of asset `a` remains
    have hcomb : ∀ l : List Signal,
        l.filter (fun s => s.asset_id == a.aid && s.is_active)
          = (l.filter (fun s => s.asset_id == a.aid)).filter (fun s => s.is_active) := by
      intro l
      rw [List.filter_filter]
      have hsw : (fun s : Signal => s.asset_id == a.aid && s.is_active)
          = (fun s : Signal => s.is_active && s.asset_id == a.aid) := by
        funext s
        exact Bool.and_comm _ _
      rw [hsw]
    rw [hY, hcomb, tableFold_filter_ne a.aid post hpost, hstep, List.filter_append]
    have hsigfilter : ([sig].filter (fun s : Signal => s.asset_id == a.aid)) = [sig] := by
      simp [List.filter, hsigid]
    rw [hsigfilter]
    rw [List.filter_append]
    have hnil : ((deactivateFor a.aid (tableFold pre T)).filter
        (fun s => s.asset_id == a.aid)).filter (fun s => s.is_active) = [] := by
      rw [List.filter_eq_nil_iff]
      intro x hx
      have hx1 := List.mem_of_mem_filter hx
      have hx2 : x.asset_id = a.aid := by
        have := (List.mem_filter.mp hx).2
        simpa using this
      have := deactivateFor_no_active a.aid (tableFold pre T) x hx1 hx2
      simp [this]
    rw [hnil]
    have : ([sig].filter (fun s : Signal => s.is_active)) = [sig] := by
      simp [List.filter, hsigact]
    rw [this]
    rfl
  · -- every old row of the asset is retained, actives flipped to inactive
    intro s hsT hsid
    have hmemX : ∀ u : Signal, u ∈ tableStep a (tableFold pre T) → u.asset_id = a.aid →
        u ∈ tableFold post (tableStep a (tableFold pre T)) := by
      intro u hu huid
      exact tableFold_mem_ne a.aid post hpost _ u huid hu
    rw [hY]
    cases hact : s.is_active with
    | true =>
      simp only [hact, if_true]
      rcases tableFold_retain pre T s hsT with hX | hX
      · have h1 : { s with is_active := false } ∈ deactivateFor a.aid (tableFold pre T) :=
          mem_deactivateFor_deact a.aid (tableFold pre T) s hX hsid
        exact hmemX _ (by rw [hstep]; exact List.mem_append_left _ h1) hsid
      · have h1 : { s with is_active := false } ∈ deactivateFor a.aid (tableFold pre T) :=
          mem_deactivateFor_self a.aid (tableFold pre T) _ hX rfl
        exact hmemX _ (by rw [hstep]; exact List.mem_append_left _ h1) hsid
    | false =>
      simp only [hact, Bool.false_eq_true, if_false]
      rcases tableFold_retain pre T s hsT with hX | hX
      · have h1 : s ∈ deactivateFor a.aid (tableFold pre T) :=
          mem_deactivateFor_self a.aid (tableFold pre T) s hX hact
        exact hmemX _ (by rw [hstep]; exact List.mem_append_left _ h1) hsid
      · rw [deact_self s hact] at hX
        have h1 : s ∈ deactivateFor a.aid (tableFold pre T) :=
          mem_deactivateFor_self a.aid (tableFold pre T) s hX hact
        exact hmemX _ (by rw [hstep]; exact List.mem_append_left _ h1) hsid

/-- Witness for C2 at a concrete input. -/
theorem signal_supersession_C2_witness :
    ∃ r t, compute_signals none [goodAsset] [oldActiveSignal, oldInactiveSignal]
        = SignalOutcome.ok r t
      ∧ (t.filter (fun s => s.asset_id == goodAsset.aid && s.is_active)).length = 1
      ∧ ∀ s ∈ [oldActiveSignal, oldInactiveSignal], s.asset_id = goodAsset.aid →
          (if s.is_active then { s with is_active := false } else s) ∈ t :=
  signal_supersession_C2 [goodAsset] [oldActiveSignal, oldInactiveSignal] [] [] goodAsset
    [rsiOversoldRow, sma20Row, sma50Row] rfl rfl (by decide) (by simp)

/-! ### Rationale bookkeeping for the vote aggregation -/

theorem hasMixed_append_mixed (l : List RPart) : hasMixed (l ++ [RPart.mixed]) = true := by
  induction l with
  | nil => rfl
  | cons p rest ih => cases p <;> simp [hasMixed, ih]

theorem hasMixed_eq_false (l : List RPart) (h : RPart.mixed ∉ l) : hasMixed l = false := by
  induction l with
  | nil => rfl
  | cons p rest ih =>
    have hrest : RPart.mixed ∉ rest := fun hm => h (List.mem_cons_of_mem p hm)
    cases p
    case mixed => exact absurd (List.mem_cons_self _ _) h
    all_goals simp [hasMixed, ih hrest]

theorem rsiRule_no_mixed (o : Option IndRow) (vs : VoteState)
    (h : RPart.mixed ∉ vs.rationale_parts) :
    RPart.mixed ∉ (rsiRule o vs).rationale_parts := by
  unfold rsiRule
  cases o with
  | none => exact h
  | some r =>
    dsimp only
    by_cases ht : truthy r.value = true
    · rw [if_pos ht]
      split_ifs <;> simp_all [List.mem_append]
    · rw [if_neg ht]
      exact h

theorem smaRule_no_mixed (o₁ o₂ : Option IndRow) (vs : VoteState)
    (h : RPart.mixed ∉ vs.rationale_parts) :
    RPart.mixed ∉ (smaRule o₁ o₂ vs).rationale_parts := by
  unfold smaRule
  cases o₁ with
  | none => exact h
  | some a =>
    cases o₂ with
    | none => exact h
    | some b =>
      dsimp only
      by_cases ht : (truthy a.value && truthy b.value) = true
      · rw [if_pos ht]
        split_ifs <;> simp_all [List.mem_append]
      · rw [if_neg ht]
        exact h

theorem macdRule_no_mixed (o : Option IndRow) (vs : VoteState)
    (h : RPart.mixed ∉ vs.rationale_parts) :
    RPart.mixed ∉ (macdRule o vs).rationale_parts := by
  unfold macdRule
  cases o with
  | none => exact h
  | some m =>
    dsimp only
    by_cases ht : (truthy m.value && truthy m.value2) = true
    · rw [if_pos ht]
      split_ifs <;> simp_all [List.mem_append]
    · rw [if_neg ht]
      exact h

theorem evalRulesOn_no_mixed (inds : List IndRow) :
    RPart.mixed ∉ (evalRulesOn inds).rationale_parts := by
  unfold evalRulesOn
  apply macdRule_no_mixed
  apply smaRule_no_mixed
  apply rsiRule_no_mixed
  simp [initVotes]

theorem rsiRule_votes_le (o : Option IndRow) (vs : VoteState)
    (h : vs.buy_signals + vs.sell_signals ≤ vs.rationale_parts.length) :
    (rsiRule o vs).buy_signals + (rsiRule o vs).sell_signals
      ≤ (rsiRule o vs).rationale_parts.length := by
  unfold rsiRule
  cases o with
  | none => exact h
  | some r =>
    dsimp only
    by_cases ht : truthy r.value = true
    · rw [if_pos ht]
      split_ifs <;> simp [List.length_append] <;> omega
    · rw [if_neg ht]
      exact h

theorem smaRule_votes_le (o₁ o₂ : Option IndRow) (vs : VoteState)
    (h : vs.buy_signals + vs.sell_signals ≤ vs.rationale_parts.length) :
    (smaRule o₁ o₂ vs).buy_signals + (smaRule o₁ o₂ vs).sell_signals
      ≤ (smaRule o₁ o₂ vs).rationale_parts.length := by
  unfold smaRule
  cases o₁ with
  | none => exact h
  | some a =>
    cases o₂ with
    | none => exact h
    | some b =>
      dsimp only
      by_cases ht : (truthy a.value && truthy b.value) = true
      · rw [if_pos ht]
        split_ifs <;> simp [List.length_append] <;> omega
      · rw [if_neg ht]
        exact h

theorem macdRule_votes_le (o : Option IndRow) (vs : VoteState)
    (h : vs.buy_signals + vs.sell_signals ≤ vs.rationale_parts.length) :
    (macdRule o vs).buy_signals + (macdRule o vs).sell_signals
      ≤ (macdRule o vs).rationale_parts.length := by
  unfold macdRule
  cases o with
  | none => exact h
  | some m =>
    dsimp only
    by_cases ht : (truthy m.value && truthy m.value2) = true
    · rw [if_pos ht]
      split_ifs <;> simp [List.length_append] <;> omega
    · rw [if_neg ht]
      exact h

theorem evalRulesOn_votes_le (inds : List IndRow) :
    (evalRulesOn inds).buy_signals + (evalRulesOn inds).sell_signals
      ≤ (evalRulesOn inds).rationale_parts.length := by
  unfold evalRulesOn
  apply macdRule_votes_le
  apply smaRule_votes_le
  apply rsiRule_votes_le
  simp [initVotes]

theorem decide_rationale_flags (vs : VoteState)
    (hm : RPart.mixed ∉ vs.rationale_parts)
    (hv : vs.buy_signals + vs.sell_signals ≤ vs.rationale_parts.length) :
    (mkRationale (decideVotes vs).parts).notesMixed = (vs.buy_signals == vs.sell_signals)
    ∧ (mkRationale (decideVotes vs).parts).isNoClear = false := by
  by_cases heq : vs.buy_signals = vs.sell_signals
  · have h1 : ¬ vs.sell_signals < vs.buy_signals := by omega
    have h2 : ¬ vs.buy_signals < vs.sell_signals := by omega
    unfold decideVotes
    rw [if_neg h1, if_neg h2]
    unfold mkRationale
    have hne : vs.rationale_parts ++ [RPart.mixed] ≠ [] := by simp
    rw [if_neg hne]
    constructor
    · show hasMixed (vs.rationale_parts ++ [RPart.mixed]) = _
      rw [hasMixed_append_mixed, heq]
      simp
    · rfl
  · have hpartsne : vs.rationale_parts ≠ [] := by
      intro hnil
      rw [hnil] at hv
      simp at hv
      omega
    have hparts_same : (decideVotes vs).parts = vs.rationale_parts := by
      unfold decideVotes
      split_ifs <;> first | rfl | omega
    rw [hparts_same]
    unfold mkRationale
    rw [if_neg hpartsne]
    constructor
    · show hasMixed vs.rationale_parts = _
      rw [hasMixed_eq_false _ hm]
      symm
      exact beq_eq_false_iff_ne.mpr heq
    · rfl

/-- Claim C3 (amended): the emitted signal maps the vote pair exactly as
prescribed, and in the tie case — zero votes included — the rationale
notes mixed signals; the `'No clear signals'` text never appears on an
emitted signal. -/
theorem vote_aggregation_C3 (aid : ℕ) (inds : List IndRow)
    (h : (evalRulesOn inds).indicators_used ≠ []) :
    ∃ sig, buildSignal aid inds = some sig
      ∧ (sig.signal_type, sig.strength, sig.confidence)
          = claim_vote_aggregate (evalRulesOn inds).buy_signals (evalRulesOn inds).sell_signals
      ∧ sig.rationale.notesMixed
          = ((evalRulesOn inds).buy_signals == (evalRulesOn inds).sell_signals)
      ∧ sig.rationale.isNoClear = false := by
  refine ⟨_, buildSignal_some_of_used aid inds h, ?_, ?_, ?_⟩
  · show ((decideVotes (evalRulesOn inds)).signal_type, (decideVotes (evalRulesOn inds)).strength,
        (decideVotes (evalRulesOn inds)).confidence) = _
    unfold decideVotes claim_vote_aggregate
    split_ifs <;> rfl
  · exact (decide_rationale_flags (evalRulesOn inds)
      (evalRulesOn_no_mixed inds) (evalRulesOn_votes_le inds)).1
  · exact (decide_rationale_flags (evalRulesOn inds)
      (evalRulesOn_no_mixed inds) (evalRulesOn_votes_le inds)).2

/-- Witness for C3: the spec scenario RSI = 25 (buy), SMA_20 > SMA_50
(buy), no MACD. -/
theorem vote_aggregation_C3_witness :
    (evalRulesOn [rsiOversoldRow, sma20Row, sma50Row]).indicators_used ≠ []
    ∧ ∃ sig, buildSignal 7 [rsiOversoldRow, sma20Row, sma50Row] = some sig
      ∧ (sig.signal_type, sig.strength, sig.confidence)
          = claim_vote_aggregate (evalRulesOn [rsiOversoldRow, sma20Row, sma50Row]).buy_signals
              (evalRulesOn [rsiOversoldRow, sma20Row, sma50Row]).sell_signals
      ∧ sig.rationale.notesMixed
          = ((evalRulesOn [rsiOversoldRow, sma20Row, sma50Row]).buy_signals
              == (evalRulesOn [rsiOversoldRow, sma20Row, sma50Row]).sell_signals)
      ∧ sig.rationale.isNoClear = false :=
  ⟨by decide, vote_aggregation_C3 7 [rsiOversoldRow, sma20Row, sma50Row] (by decide)⟩

/-- Counterexample for C3 as stated: with only a neutral RSI row both vote
counts are zero, yet the emitted rationale is the mixed-signals note, not
the claimed `'no clear signals'` text. -/
theorem vote_aggregation_C3_counterexample :
    (evalRulesOn [rsiNeutralRow]).buy_signals = 0
    ∧ (evalRulesOn [rsiNeutralRow]).sell_signals = 0
    ∧ (buildSignal 1 [rsiNeutralRow]).map (fun s => s.rationale)
        = some (RatText.joined [RPart.mixed])
    ∧ RatText.isNoClear (RatText.joined [RPart.mixed]) = false
    ∧ RatText.notesMixed (RatText.joined [RPart.mixed]) = true := by
  refine ⟨?_, ?_, ?_, ?_, ?_⟩ <;> decide

/-- Claim C4 (amended): when the deduplicated latest indicators include an
RSI_14 row whose primary value is non-null and nonzero, the RSI rule adds
exactly one buy vote below 30, exactly one sell vote above 70, no vote in
between, and always records RSI_14 among the indicators used; when the
value is null or exactly zero, the `if rsi and rsi.value:` truthiness
guard skips the rule entirely — no vote and no RSI_14 entry. -/
theorem rsi_rule_C4 (inds : List IndRow) (r : IndRow) (vs : VoteState)
    (hfind : indicator_map inds "RSI_14" = some r) :
    (∀ v : ℚ, r.value = some v → v ≠ 0 →
      rsiRule (indicator_map inds "RSI_14") vs
        = { buy_signals := vs.buy_signals + (if v < 30 then 1 else 0),
            sell_signals := vs.sell_signals + (if 70 < v then 1 else 0),
            rationale_parts := vs.rationale_parts
              ++ (if v < 30 then [RPart.rsiOversold v]
                  else if 70 < v then [RPart.rsiOverbought v] else []),
            indicators_used := vs.indicators_used ++ ["RSI_14"] })
    ∧ ((r.value = none ∨ r.value = some 0) →
        rsiRule (indicator_map inds "RSI_14") vs = vs) := by
  rw [hfind]
  constructor
  · intro v hv hv0
    unfold rsiRule
    dsimp only
    have ht : truthy r.value = true := by
      rw [hv]
      simp [truthy]
      exact hv0
    have hgetD : r.value.getD 0 = v := by
      rw [hv]
      rfl
    rw [if_pos ht, hgetD]
    split_ifs with h1 h2 h3
    · linarith
    · simp
    · simp
    · simp
  · intro hv
    unfold rsiRule
    dsimp only
    have ht : truthy r.value = false := by
      rcases hv with hv | hv <;> rw [hv] <;> simp [truthy]
    rw [ht]
    simp

/-- Witness for C4 at a concrete input: an RSI_14 row with value 25. -/
theorem rsi_rule_C4_witness :
    rsiRule (indicator_map [rsiOversoldRow] "RSI_14") initVotes
      = { buy_signals := 0 + (if (25 : ℚ) < 30 then 1 else 0),
          sell_signals := 0 + (if (70 : ℚ) < 25 then 1 else 0),
          rationale_parts := [] ++ (if (25 : ℚ) < 30 then [RPart.rsiOversold 25]
              else if (70 : ℚ) < 25 then [RPart.rsiOverbought 25] else []),
          indicators_used := [] ++ ["RSI_14"] } :=
  (rsi_rule_C4 [rsiOversoldRow] rsiOversoldRow initVotes rfl).1 25 rfl (by norm_num)

/-- Counterexample for C4 as stated: an RSI_14 snapshot with value 0 —
below the oversold threshold 30 — contributes no buy vote and is not
recorded among the indicators used. -/
theorem rsi_rule_C4_counterexample :
    (rsiRule (indicator_map [rsiZeroRow] "RSI_14") initVotes).buy_signals = 0
    ∧ (rsiRule (indicator_map [rsiZeroRow] "RSI_14") initVotes).indicators_used = []
    ∧ rsiZeroRow.value = some 0
    ∧ ((0 : ℚ) < 30) := by
  refine ⟨?_, ?_, ?_, ?_⟩ <;> decide

/-! ### Decomposition of an indicator run into per-asset contributions -/

theorem indStep_decomp (taOut : List Candle → IndVals) (acc : IndicatorRun) (a : IndAssetProc) :
    indStep taOut acc a =
      ⟨acc.processed_assets + indProcContrib a,
       acc.indicators_created + (indRowsContrib taOut a).length,
       acc.errors ++ indErrContrib a, acc.rows ++ indRowsContrib taOut a⟩ := by
  obtain ⟨p, c, E, R⟩ := acc
  cases hb : a.behavior with
  | error e => simp [indStep, indProcContrib, indRowsContrib, indErrContrib, hb]
  | ok candles =>
    by_cases hl : candles.length < 20
    · simp [indStep, indProcContrib, indRowsContrib, indErrContrib, hb, hl]
    · simp [indStep, indProcContrib, indRowsContrib, indErrContrib, hb, hl]

theorem indRunLoop_decomp (taOut : List Candle → IndVals) (assets : List IndAssetProc)
    (acc : IndicatorRun) :
    indRunLoop taOut assets acc =
      ⟨acc.processed_assets + indProcSum assets,
       acc.indicators_created + (indRowsOf taOut assets).length,
       acc.errors ++ indErrsOf assets, acc.rows ++ indRowsOf taOut assets⟩ := by
  induction assets generalizing acc with
  | nil => simp [indRunLoop, indProcSum, indRowsOf, indErrsOf]
  | cons a rest ih =>
    have h1 : indRunLoop taOut (a :: rest) acc = indRunLoop taOut rest (indStep taOut acc a) := rfl
    rw [h1, ih, indStep_decomp]
    simp [indProcSum, indRowsOf, indErrsOf, Nat.add_assoc, List.length_append]

/-- Claim C6: an asset whose candle query yields fewer than 20 daily
candles is skipped outright — the whole `compute_indicators` run is the
run without that asset: no indicator row for it, no error entry for it,
and the remaining assets are processed exactly as before. -/
theorem insufficient_data_skip_C6 (taOut : List Candle → IndVals)
    (pre post : List IndAssetProc) (a : IndAssetProc) (candles : List Candle)
    (hb : a.behavior = Except.ok candles) (hlen : candles.length < 20) :
    compute_indicators taOut none (pre ++ a :: post)
      = compute_indicators taOut none (pre ++ post) := by
  have hstep : ∀ acc, indStep taOut acc a = acc := by
    intro acc
    unfold indStep
    rw [hb]
    dsimp only
    rw [if_pos hlen]
  have hloop : ∀ init, indRunLoop taOut ((pre ++ a :: post).filter (fun x => x.is_active)) init
      = indRunLoop taOut ((pre ++ post).filter (fun x => x.is_active)) init := by
    intro init
    rw [List.filter_append, List.filter_append, List.filter_cons]
    by_cases ha : a.is_active = true
    · rw [ha]
      simp only [if_true]
      unfold indRunLoop
      rw [List.foldl_append, List.foldl_append, List.foldl_cons, hstep]
    · have ha2 : a.is_active = false := by
        cases hval : a.is_active
        · rfl
        · exact absurd hval ha
      rw [ha2]
      simp only [Bool.false_eq_true, if_false]
  show IndicatorOutcome.ok _ _ = IndicatorOutcome.ok _ _
  rw [hloop]

/-- Witness for C6: a 5-candle asset between two copies of a 25-candle
asset. -/
theorem insufficient_data_skip_C6_witness :
    compute_indicators constTa none ([okDataAsset] ++ shortDataAsset :: [okDataAsset])
      = compute_indicators constTa none ([okDataAsset] ++ [okDataAsset]) :=
  insufficient_data_skip_C6 constTa [okDataAsset] [okDataAsset] shortDataAsset
    (mkTestCandles 5) rfl (by decide)

theorem mkRows_sound (aid : ℕ) (ts : ℚ) (v : IndVals) :
    ∀ row ∈ mkRows aid ts v, ∃ d ∈ indicator_definitions v,
      row.name = d.name ∧ d.value = some row.value := by
  intro row hrow
  unfold mkRows at hrow
  obtain ⟨d, hd, hfd⟩ := List.mem_filterMap.mp hrow
  cases hval : d.value with
  | none =>
    rw [hval] at hfd
    cases hfd
  | some x =>
    rw [hval] at hfd
    simp only [Option.map_some'] at hfd
    injection hfd with hfd2
    refine ⟨d, hd, ?_, ?_⟩
    · rw [← hfd2]
    · rw [hval, ← hfd2]

/-- Claim C7: a persisted indicator row always carries the computed
non-NaN value of the definition it came from (a NaN is never coerced to
zero), and an indicator whose latest value is NaN yields no row under its
name at that timestamp. -/
theorem nan_not_persisted_C7 (aid : ℕ) (ts : ℚ) (v : IndVals) :
    (∀ row ∈ mkRows aid ts v, ∃ d ∈ indicator_definitions v,
        row.name = d.name ∧ d.value = some row.value)
    ∧ (∀ d ∈ indicator_definitions v, d.value = none →
        (mkRows aid ts v).all (fun row => row.name != d.name) = true) := by
  refine ⟨mkRows_sound aid ts v, ?_⟩
  intro d hd hdnone
  rw [List.all_eq_true]
  intro row hrow
  obtain ⟨d2, hd2, hname, hval⟩ := mkRows_sound aid ts v row hrow
  simp only [indicator_definitions, List.mem_cons, List.not_mem_nil, or_false] at hd hd2
  rcases hd with rfl | rfl | rfl | rfl | rfl | rfl | rfl | rfl | rfl <;>
    rcases hd2 with rfl | rfl | rfl | rfl | rfl | rfl | rfl | rfl | rfl <;>
    simp_all [bne]

/-- Witness for C7: with only SMA_20 defined, the RSI_14 definition is
NaN and no RSI_14 row is persisted. -/
theorem nan_not_persisted_C7_witness :
    (mkRows 1 0 onlySma20Vals).all (fun row => row.name != "RSI_14") = true :=
  (nan_not_persisted_C7 1 0 onlySma20Vals).2 ⟨"RSI_14", none, none, none⟩ (by decide) rfl

/-! ### Error-path behaviour of the batch entrypoints -/

theorem tableStep_error (b : AssetProc) (e : String) (hb : b.behavior = Except.error e)
    (t : List Signal) : tableStep b t = t := by
  unfold tableStep
  rw [hb]

/-- Claim C9 (amended): both batch entrypoints always return a value —
either the {processed, created, errors} result together with the committed
store, or an `{'error': message}` object, the latter arising exactly when
the requested asset id does not exist; and a failure while processing one
asset contributes exactly one error message while the counts, the store
and the work done for the sibling assets are those of the run without the
failing asset. -/
theorem batch_partial_success_C9 :
    (∀ (sel : Option ℕ) (assets : List AssetProc) (T : List Signal),
      (∃ m, compute_signals sel assets T = SignalOutcome.err m)
        ↔ ∃ aid, sel = some aid ∧ assets.find? (fun x => x.aid == aid) = none)
    ∧ (∀ (taOut : List Candle → IndVals) (sel : Option ℕ) (assets : List IndAssetProc),
      (∃ m, compute_indicators taOut sel assets = IndicatorOutcome.err m)
        ↔ ∃ aid, sel = some aid ∧ assets.find? (fun x => x.aid == aid) = none)
    ∧ (∀ (pre post : List AssetProc) (b : AssetProc) (e : String) (T : List Signal),
      b.behavior = Except.error e → b.is_active = true →
      ∃ r t r' t', compute_signals none (pre ++ b :: post) T = SignalOutcome.ok r t
        ∧ compute_signals none (pre ++ post) T = SignalOutcome.ok r' t'
        ∧ r.processed_assets = r'.processed_assets
        ∧ r.signals_created = r'.signals_created
        ∧ t = t'
        ∧ r.errors = errsOf (pre.filter (fun x => x.is_active))
            ++ ("Error processing " ++ b.symbol ++ ": " ++ e)
              :: errsOf (post.filter (fun x => x.is_active))
        ∧ r'.errors = errsOf (pre.filter (fun x => x.is_active))
            ++ errsOf (post.filter (fun x => x.is_active)))
    ∧ (∀ (taOut : List Candle → IndVals) (pre post : List IndAssetProc) (b : IndAssetProc)
        (e : String),
      b.behavior = Except.error e → b.is_active = true →
      ∃ r rows r' rows',
        compute_indicators taOut none (pre ++ b :: post) = IndicatorOutcome.ok r rows
        ∧ compute_indicators taOut none (pre ++ post) = IndicatorOutcome.ok r' rows'
        ∧ r.processed_assets = r'.processed_assets
        ∧ r.indicators_created = r'.indicators_created
        ∧ rows = rows'
        ∧ r.errors = indErrsOf (pre.filter (fun x => x.is_active))
            ++ ("Error processing " ++ b.symbol ++ ": " ++ e)
              :: indErrsOf (post.filter (fun x => x.is_active))
        ∧ r'.errors = indErrsOf (pre.filter (fun x => x.is_active))
            ++ indErrsOf (post.filter (fun x => x.is_active))) := by
  refine ⟨?_, ?_, ?_, ?_⟩
  · intro sel assets T
    constructor
    · rintro ⟨m, hm⟩
      cases sel with
      | none => exact SignalOutcome.noConfusion hm
      | some aid =>
        cases hfind : assets.find? (fun x => x.aid == aid) with
        | none => exact ⟨aid, rfl, hfind⟩
        | some a =>
          unfold compute_signals at hm
          dsimp only at hm
          rw [hfind] at hm
          exact SignalOutcome.noConfusion hm
    · rintro ⟨aid, rfl, hfind⟩
      refine ⟨"Asset " ++ toString aid ++ " not found", ?_⟩
      unfold compute_signals
      dsimp only
      rw [hfind]
  · intro taOut sel assets
    constructor
    · rintro ⟨m, hm⟩
      cases sel with
      | none => exact IndicatorOutcome.noConfusion hm
      | some aid =>
        cases hfind : assets.find? (fun x => x.aid == aid) with
        | none => exact ⟨aid, rfl, hfind⟩
        | some a =>
          unfold compute_indicators at hm
          dsimp only at hm
          rw [hfind] at hm
          exact IndicatorOutcome.noConfusion hm
    · rintro ⟨aid, rfl, hfind⟩
      refine ⟨"Asset " ++ toString aid ++ " not found", ?_⟩
      unfold compute_indicators
      dsimp only
      rw [hfind]
  · intro pre post b e T hb hact
    have hfb : (pre ++ b :: post).filter (fun x => x.is_active)
        = pre.filter (fun x => x.is_active) ++ b :: post.filter (fun x => x.is_active) := by
      rw [List.filter_append, List.filter_cons, hact]
      simp
    have hfb2 : (pre ++ post).filter (fun x => x.is_active)
        = pre.filter (fun x => x.is_active) ++ post.filter (fun x => x.is_active) := by
      rw [List.filter_append]
    have h1 : compute_signals none (pre ++ b :: post) T
        = SignalOutcome.ok
            ⟨procSum (pre.filter (fun x => x.is_active) ++ b :: post.filter (fun x => x.is_active)),
             createdSum (pre.filter (fun x => x.is_active) ++ b :: post.filter (fun x => x.is_active)),
             errsOf (pre.filter (fun x => x.is_active) ++ b :: post.filter (fun x => x.is_active))⟩
            (tableFold (pre.filter (fun x => x.is_active) ++ b :: post.filter (fun x => x.is_active)) T) := by
      have h0 : compute_signals none (pre ++ b :: post) T
          = SignalOutcome.ok
              ⟨(runLoop ((pre ++ b :: post).filter (fun x => x.is_active)) ⟨0, 0, [], T⟩).processed_assets,
               (runLoop ((pre ++ b :: post).filter (fun x => x.is_active)) ⟨0, 0, [], T⟩).signals_created,
               (runLoop ((pre ++ b :: post).filter (fun x => x.is_active)) ⟨0, 0, [], T⟩).errors⟩
              (runLoop ((pre ++ b :: post).filter (fun x => x.is_active)) ⟨0, 0, [], T⟩).table := rfl
      rw [h0, hfb, runLoop_decomp]
      simp
    have h2 : compute_signals none (pre ++ post) T
        = SignalOutcome.ok
            ⟨procSum (pre.filter (fun x => x.is_active) ++ post.filter (fun x => x.is_active)),
             createdSum (pre.filter (fun x => x.is_active) ++ post.filter (fun x => x.is_active)),
             errsOf (pre.filter (fun x => x.is_active) ++ post.filter (fun x => x.is_active))⟩
            (tableFold (pre.filter (fun x => x.is_active) ++ post.filter (fun x => x.is_active)) T) := by
      have h0 : compute_signals none (pre ++ post) T
          = SignalOutcome.ok
              ⟨(runLoop ((pre ++ post).filter (fun x => x.is_active)) ⟨0, 0, [], T⟩).processed_assets,
               (runLoop ((pre ++ post).filter (fun x => x.is_active)) ⟨0, 0, [], T⟩).signals_created,
               (runLoop ((pre ++ post).filter (fun x => x.is_active)) ⟨0, 0, [], T⟩).errors⟩
              (runLoop ((pre ++ post).filter (fun x => x.is_active)) ⟨0, 0, [], T⟩).table := rfl
      rw [h0, hfb2, runLoop_decomp]
      simp
    refine ⟨_, _, _, _, h1, h2, ?_, ?_, ?_, ?_, ?_⟩
    · rw [procSum_append, procSum_append]
      have : procSum (b :: post.filter (fun x => x.is_active))
          = procContrib b + procSum (post.filter (fun x => x.is_active)) := by
        simp [procSum]
      rw [this]
      simp [procContrib, hb]
    · rw [createdSum_append, createdSum_append]
      have : createdSum (b :: post.filter (fun x => x.is_active))
          = createdContrib b + createdSum (post.filter (fun x => x.is_active)) := by
        simp [createdSum]
      rw [this]
      simp [createdContrib, hb]
    · rw [tableFold_append, tableFold_cons, tableStep_error b e hb, tableFold_append]
    · rw [errsOf_append]
      have : errsOf (b :: post.filter (fun x => x.is_active))
          = errContrib b ++ errsOf (post.filter (fun x => x.is_active)) := by
        simp [errsOf]
      rw [this]
      simp [errContrib, hb]
    · rw [errsOf_append]
  · intro taOut pre post b e hb hact
    have hfb : (pre ++ b :: post).filter (fun x => x.is_active)
        = pre.filter (fun x => x.is_active) ++ b :: post.filter (fun x => x.is_active) := by
      rw [List.filter_append, List.filter_cons, hact]
      simp
    have hfb2 : (pre ++ post).filter (fun x => x.is_active)
        = pre.filter (fun x => x.is_active) ++ post.filter (fun x => x.is_active) := by
      rw [List.filter_append]
    have h1 : compute_indicators taOut none (pre ++ b :: post)
        = IndicatorOutcome.ok
            ⟨indProcSum (pre.filter (fun x => x.is_active) ++ b :: post.filter (fun x => x.is_active)),
             (indRowsOf taOut (pre.filter (fun x => x.is_active) ++ b :: post.filter (fun x => x.is_active))).length,
             indErrsOf (pre.filter (fun x => x.is_active) ++ b :: post.filter (fun x => x.is_active))⟩
            (indRowsOf taOut (pre.filter (fun x => x.is_active) ++ b :: post.filter (fun x => x.is_active))) := by
      have h0 : compute_indicators taOut none (pre ++ b :: post)
          = IndicatorOutcome.ok
              ⟨(indRunLoop taOut ((pre ++ b :: post).filter (fun x => x.is_active)) ⟨0, 0, [], []⟩).processed_assets,
               (indRunLoop taOut ((pre ++ b :: post).filter (fun x => x.is_active)) ⟨0, 0, [], []⟩).indicators_created,
               (indRunLoop taOut ((pre ++ b :: post).filter (fun x => x.is_active)) ⟨0, 0, [], []⟩).errors⟩
              (indRunLoop taOut ((pre ++ b :: post).filter (fun x => x.is_active)) ⟨0, 0, [], []⟩).rows := rfl
      rw [h0, hfb, indRunLoop_decomp]
      simp
    have h2 : compute_indicators taOut none (pre ++ post)
        = IndicatorOutcome.ok
            ⟨indProcSum (pre.filter (fun x => x.is_active) ++ post.filter (fun x => x.is_active)),
             (indRowsOf taOut (pre.filter (fun x => x.is_active) ++ post.filter (fun x => x.is_active))).length,
             indErrsOf (pre.filter (fun x => x.is_active) ++ post.filter (fun x => x.is_active))⟩
            (indRowsOf taOut (pre.filter (fun x => x.is_active) ++ post.filter (fun x => x.is_active))) := by
      have h0 : compute_indicators taOut none (pre ++ post)
          = IndicatorOutcome.ok
              ⟨(indRunLoop taOut ((pre ++ post).filter (fun x => x.is_active)) ⟨0, 0, [], []⟩).processed_assets,
               (indRunLoop taOut ((pre ++ post).filter (fun x => x.is_active)) ⟨0, 0, [], []⟩).indicators_created,
               (indRunLoop taOut ((pre ++ post).filter (fun x => x.is_active)) ⟨0, 0, [], []⟩).errors⟩
              (indRunLoop taOut ((pre ++ post).filter (fun x => x.is_active)) ⟨0, 0, [], []⟩).rows := rfl
      rw [h0, hfb2, indRunLoop_decomp]
      simp
    have hrows : indRowsOf taOut (pre.filter (fun x => x.is_active) ++ b :: post.filter (fun x => x.is_active))
        = indRowsOf taOut (pre.filter (fun x => x.is_active) ++ post.filter (fun x => x.is_active)) := by
      simp [indRowsOf, indRowsContrib, hb]
    refine ⟨_, _, _, _, h1, h2, ?_, ?_, ?_, ?_, ?_⟩
    · simp [indProcSum, indProcContrib, hb]
    · rw [hrows]
    · rw [hrows]
    · simp [indErrsOf, indErrContrib, hb]
    · dsimp only
      simp [indErrsOf]

/-- Witness for C9: one failing asset alone, for both entrypoints. -/
theorem batch_partial_success_C9_witness :
    (∃ r t r' t', compute_signals none ([] ++ failAsset :: []) [] = SignalOutcome.ok r t
      ∧ compute_signals none ([] ++ []) [] = SignalOutcome.ok r' t'
      ∧ r.processed_assets = r'.processed_assets
      ∧ r.signals_created = r'.signals_created
      ∧ t = t'
      ∧ r.errors = errsOf (List.filter (fun x => x.is_active) [])
          ++ ("Error processing " ++ failAsset.symbol ++ ": " ++ "boom")
            :: errsOf (List.filter (fun x => x.is_active) [])
      ∧ r'.errors = errsOf (List.filter (fun x => x.is_active) [])
          ++ errsOf (List.filter (fun x => x.is_active) []))
    ∧ failAsset.behavior = Except.error "boom" :=
  ⟨batch_partial_success_C9.2.2.1 [] [] failAsset "boom" [] rfl rfl, rfl⟩

/-- Counterexample for C9 as stated: a request for a non-existent asset id
returns the `{'error': ...}` object, not the {processed, created, errors}
shape. -/
theorem batch_partial_success_C9_counterexample :
    compute_signals (some 42) [] []
        = SignalOutcome.err ("Asset " ++ toString (42 : ℕ) ++ " not found")
    ∧ compute_indicators constTa (some 42) []
        = IndicatorOutcome.err ("Asset " ++ toString (42 : ℕ) ++ " not found") :=
  ⟨rfl, rfl⟩

/-! ### The frame property of an asset with unusable indicators -/

theorem evalRulesOn_unusable (inds : List IndRow)
    (hnone : ∀ r ∈ inds, (r.name = "RSI_14" ∨ r.name = "SMA_20" ∨ r.name = "SMA_50"
        ∨ r.name = "MACD_12_26_9") → truthy r.value = false) :
    evalRulesOn inds = initVotes := by
  unfold evalRulesOn
  have huse : ∀ (n : String) (r : IndRow), indicator_map inds n = some r → r ∈ inds ∧ r.name = n := by
    intro n r hr
    refine ⟨List.mem_of_find?_eq_some hr, ?_⟩
    have := List.find?_some hr
    simpa using this
  have hrsi : ∀ vs, rsiRule (indicator_map inds "RSI_14") vs = vs := by
    intro vs
    cases hr : indicator_map inds "RSI_14" with
    | none => rfl
    | some r =>
      obtain ⟨hmem, hname⟩ := huse _ r hr
      have ht : truthy r.value = false := hnone r hmem (Or.inl hname)
      unfold rsiRule
      dsimp only
      rw [ht]
      simp
  have hsma : ∀ vs, smaRule (indicator_map inds "SMA_20") (indicator_map inds "SMA_50") vs = vs := by
    intro vs
    cases h20 : indicator_map inds "SMA_20" with
    | none => rfl
    | some x =>
      cases h50 : indicator_map inds "SMA_50" with
      | none => rfl
      | some y =>
        obtain ⟨hmem, hname⟩ := huse _ x h20
        have ht : truthy x.value = false := hnone x hmem (Or.inr (Or.inl hname))
        unfold smaRule
        dsimp only
        rw [ht]
        simp
  have hmacd : ∀ vs, macdRule (indicator_map inds "MACD_12_26_9") vs = vs := by
    intro vs
    cases hm : indicator_map inds "MACD_12_26_9" with
    | none => rfl
    | some m =>
      obtain ⟨hmem, hname⟩ := huse _ m hm
      have ht : truthy m.value = false := hnone m hmem (Or.inr (Or.inr (Or.inr hname)))
      unfold macdRule
      dsimp only
      rw [ht]
      simp
  rw [hrsi, hsma, hmacd]

/-- Claim C10: an asset with recent indicator rows none of which the three
rules can use leaves the signal store entirely unchanged — nothing
inserted, nothing deactivated — while still being counted as processed;
the run is the run without that asset except for `processed_assets` being
one higher. -/
theorem unusable_indicators_frame_C10 (pre post : List AssetProc) (a : AssetProc)
    (inds : List IndRow) (T : List Signal)
    (hb : a.behavior = Except.ok inds) (hne : inds ≠ []) (hact : a.is_active = true)
    (hnone : ∀ r ∈ inds, (r.name = "RSI_14" ∨ r.name = "SMA_20" ∨ r.name = "SMA_50"
        ∨ r.name = "MACD_12_26_9") → truthy r.value = false) :
    ∃ r t r' t', compute_signals none (pre ++ a :: post) T = SignalOutcome.ok r t
      ∧ compute_signals none (pre ++ post) T = SignalOutcome.ok r' t'
      ∧ r.processed_assets = r'.processed_assets + 1
      ∧ r.signals_created = r'.signals_created
      ∧ r.errors = r'.errors
      ∧ t = t' := by
  have hbuild : buildSignal a.aid inds = none := by
    unfold buildSignal
    rw [evalRulesOn_unusable inds hnone]
    rfl
  have hfb : (pre ++ a :: post).filter (fun x => x.is_active)
      = pre.filter (fun x => x.is_active) ++ a :: post.filter (fun x => x.is_active) := by
    rw [List.filter_append, List.filter_cons, hact]
    simp
  have hfb2 : (pre ++ post).filter (fun x => x.is_active)
      = pre.filter (fun x => x.is_active) ++ post.filter (fun x => x.is_active) := by
    rw [List.filter_append]
  have h1 : compute_signals none (pre ++ a :: post) T
      = SignalOutcome.ok
          ⟨procSum (pre.filter (fun x => x.is_active) ++ a :: post.filter (fun x => x.is_active)),
           createdSum (pre.filter (fun x => x.is_active) ++ a :: post.filter (fun x => x.is_active)),
           errsOf (pre.filter (fun x => x.is_active) ++ a :: post.filter (fun x => x.is_active))⟩
          (tableFold (pre.filter (fun x => x.is_active) ++ a :: post.filter (fun x => x.is_active)) T) := by
    have h0 : compute_signals none (pre ++ a :: post) T
        = SignalOutcome.ok
            ⟨(runLoop ((pre ++ a :: post).filter (fun x => x.is_active)) ⟨0, 0, [], T⟩).processed_assets,
             (runLoop ((pre ++ a :: post).filter (fun x => x.is_active)) ⟨0, 0, [], T⟩).signals_created,
             (runLoop ((pre ++ a :: post).filter (fun x => x.is_active)) ⟨0, 0, [], T⟩).errors⟩
            (runLoop ((pre ++ a :: post).filter (fun x => x.is_active)) ⟨0, 0, [], T⟩).table := rfl
    rw [h0, hfb, runLoop_decomp]
    simp
  have h2 : compute_signals none (pre ++ post) T
      = SignalOutcome.ok
          ⟨procSum (pre.filter (fun x => x.is_active) ++ post.filter (fun x => x.is_active)),
           createdSum (pre.filter (fun x => x.is_active) ++ post.filter (fun x => x.is_active)),
           errsOf (pre.filter (fun x => x.is_active) ++ post.filter (fun x => x.is_active))⟩
          (tableFold (pre.filter (fun x => x.is_active) ++ post.filter (fun x => x.is_active)) T) := by
    have h0 : compute_signals none (pre ++ post) T
        = SignalOutcome.ok
            ⟨(runLoop ((pre ++ post).filter (fun x => x.is_active)) ⟨0, 0, [], T⟩).processed_assets,
             (runLoop ((pre ++ post).filter (fun x => x.is_active)) ⟨0, 0, [], T⟩).signals_created,
             (runLoop ((pre ++ post).filter (fun x => x.is_active)) ⟨0, 0, [], T⟩).errors⟩
            (runLoop ((pre ++ post).filter (fun x => x.is_active)) ⟨0, 0, [], T⟩).table := rfl
    rw [h0, hfb2, runLoop_decomp]
    simp
  refine ⟨_, _, _, _, h1, h2, ?_, ?_, ?_, ?_⟩
  · rw [procSum_append, procSum_append]
    have : procSum (a :: post.filter (fun x => x.is_active))
        = procContrib a + procSum (post.filter (fun x => x.is_active)) := by
      simp [procSum]
    rw [this]
    simp [procContrib, hb, hne]
    omega
  · rw [createdSum_append, createdSum_append]
    have : createdSum (a :: post.filter (fun x => x.is_active))
        = createdContrib a + createdSum (post.filter (fun x => x.is_active)) := by
      simp [createdSum]
    rw [this]
    simp [createdContrib, hb, hne, hbuild]
  · have : errsOf (a :: post.filter (fun x => x.is_active))
        = errContrib a ++ errsOf (post.filter (fun x => x.is_active)) := by
      simp [errsOf]
    rw [errsOf_append, errsOf_append, this]
    simp [errContrib, hb]
  · have hstep : tableStep a (tableFold (pre.filter (fun x => x.is_active)) T)
        = tableFold (pre.filter (fun x => x.is_active)) T := by
      unfold tableStep
      rw [hb]
      dsimp only
      rw [if_neg hne, hbuild]
    rw [tableFold_append, tableFold_cons, hstep, tableFold_append]

/-- Witness for C10: an asset whose only recent indicator is the falsy
RSI_14 row with value 0, run against a store holding one active signal. -/
theorem unusable_indicators_frame_C10_witness :
    (∃ r t r' t', compute_signals none ([] ++ votelessAsset :: []) [oldActiveSignal]
        = SignalOutcome.ok r t
      ∧ compute_signals none ([] ++ []) [oldActiveSignal] = SignalOutcome.ok r' t'
      ∧ r.processed_assets = r'.processed_assets + 1
      ∧ r.signals_created = r'.signals_created
      ∧ r.errors = r'.errors
      ∧ t = t')
    ∧ votelessAsset.behavior = Except.ok [rsiZeroRow] :=
  ⟨unusable_indicators_frame_C10 [] [] votelessAsset [rsiZeroRow] [oldActiveSignal]
      rfl (by decide) rfl (by decide), rfl⟩

end Trading
